import Mathlib

set_option maxHeartbeats 1000000

/-!
Verification development for the datascienceku file-sharing application
(`main.py`). The data model and the operations below are shallow embeddings
of the Python source: zip archives become lists of named entries, the Drive
backend and the local temp-upload directory become explicit state records,
and each route handler becomes a pure function from (state, form) to
(state, response). Python exceptions are modelled with `Option`/`Except`;
`try`/`except` blocks become explicit case analysis on those values.
-/

namespace DataScienceKu

/-! ## Zip archive model

A zip archive is its ordered sequence of entries, each carrying a name and
its (byte) content. `zipfile.ZipFile` in write mode appends entries in call
order and permits physically duplicate names; in read mode it builds its
name index by scanning entries in order, so for a duplicated name the LAST
entry wins (`NameToInfo[x.filename] = x` overwrites earlier bindings).
`zipRead` embeds that reader behaviour. -/

structure ZipEntry where
  name : String
  content : List Nat
deriving DecidableEq, Repr

abbrev ZipArchive := List ZipEntry

/-- `merge_zip_files` (main.py:188-201): writes every entry of the existing
zip in stored order, then every entry of the new zip in stored order, into
the merged archive. No deduplication is performed. -/
def merge_zip_files (old_zip new_zip : ZipArchive) : ZipArchive :=
  old_zip ++ new_zip

/-- The ordered list of entry names of an archive. -/
def zipNames (z : ZipArchive) : List String :=
  z.map (fun e => e.name)

/-- Name-based lookup as performed by Python's zipfile reader: among the
entries carrying name `p`, the last one wins; `none` when no entry has
name `p`. -/
def zipRead (z : ZipArchive) (p : String) : Option (List Nat) :=
  ((z.filter (fun e => e.name == p)).getLast?).map (fun e => e.content)

theorem zipNames_merge (A B : ZipArchive) :
    zipNames (merge_zip_files A B) = zipNames A ++ zipNames B := by
  unfold zipNames merge_zip_files
  exact List.map_append _ A B

theorem filter_name_ne_nil_of_mem {B : ZipArchive} {p : String}
    (h : p ∈ zipNames B) : B.filter (fun e => e.name == p) ≠ [] := by
  unfold zipNames at h
  rw [List.mem_map] at h
  obtain ⟨e, he, hep⟩ := h
  intro hnil
  have hmem : e ∈ B.filter (fun e => e.name == p) :=
    List.mem_filter.2 ⟨he, by simp [hep]⟩
  rw [hnil] at hmem
  exact List.not_mem_nil e hmem

theorem filter_name_eq_nil_of_not_mem {B : ZipArchive} {p : String}
    (h : p ∉ zipNames B) : B.filter (fun e => e.name == p) = [] := by
  rw [List.filter_eq_nil_iff]
  intro e he hbeq
  apply h
  unfold zipNames
  rw [List.mem_map]
  exact ⟨e, he, by simpa using hbeq⟩

theorem zipRead_merge_of_mem_overlay {A B : ZipArchive} {p : String}
    (h : p ∈ zipNames B) :
    zipRead (merge_zip_files A B) p = zipRead B p := by
  unfold zipRead merge_zip_files
  rw [List.filter_append,
    List.getLast?_append_of_ne_nil _ (filter_name_ne_nil_of_mem h)]

theorem zipRead_merge_of_not_mem_overlay {A B : ZipArchive} {p : String}
    (h : p ∉ zipNames B) :
    zipRead (merge_zip_files A B) p = zipRead A p := by
  unfold zipRead merge_zip_files
  rw [List.filter_append, filter_name_eq_nil_of_not_mem h, List.append_nil]

theorem zipRead_eq_none_of_not_mem {B : ZipArchive} {p : String}
    (h : p ∉ zipNames B) : zipRead B p = none := by
  unfold zipRead
  rw [filter_name_eq_nil_of_not_mem h]
  rfl

theorem mem_zipNames_of_count_pos {A : ZipArchive} {p : String}
    (h : 0 < (zipNames A).count p) : p ∈ zipNames A :=
  List.count_pos_iff.1 h

/-! ## Claims C1, C6, C7: properties of `merge_zip_files` -/

/-- C1 counterexample: take A = {p ↦ [1]} and B = {p ↦ [2]}, a valid pair
sharing entry name "p" with different content. The merged archive produced
by `merge_zip_files` physically contains TWO entries named "p" (A's copy
followed by B's), not exactly one as the claim states: no deduplication is
performed, the overlay only wins through reader last-entry-wins semantics. -/
theorem C1_counterexample :
    zipRead [ZipEntry.mk ("p") [1]] ("p") ≠ zipRead [ZipEntry.mk ("p") [2]] ("p") ∧
    (zipNames (merge_zip_files [ZipEntry.mk ("p") [1]] [ZipEntry.mk ("p") [2]])).count ("p") = 2 := by
  constructor
  · decide
  · decide

/-- C1 (amended): for valid zip pairs (A, B) that each contain exactly one
entry named p, with different content for p, `merge_zip_files A B` contains
exactly TWO entries named p (A's copy followed by B's); name-based lookup,
which resolves duplicate names last-entry-wins as Python's zipfile reader
does, yields B's version of p. -/
theorem C1_merge_collision_overlay_wins (A B : ZipArchive) (p : String)
    (hA : (zipNames A).count p = 1) (hB : (zipNames B).count p = 1)
    (_hne : zipRead A p ≠ zipRead B p) :
    (zipNames (merge_zip_files A B)).count p = 2 ∧
    zipRead (merge_zip_files A B) p = zipRead B p := by
  constructor
  · rw [zipNames_merge, List.count_append, hA, hB]
  · exact zipRead_merge_of_mem_overlay
      (mem_zipNames_of_count_pos (by rw [hB]; exact Nat.one_pos))

/-- C1 witness: the amended theorem instantiated at the concrete collision
pair A = {p ↦ [1]}, B = {p ↦ [2]}. -/
theorem C1_merge_collision_overlay_wins_witness :
    (zipNames (merge_zip_files [ZipEntry.mk ("p") [1]] [ZipEntry.mk ("p") [2]])).count ("p") = 2 ∧
    zipRead (merge_zip_files [ZipEntry.mk ("p") [1]] [ZipEntry.mk ("p") [2]]) ("p") =
      zipRead [ZipEntry.mk ("p") [2]] ("p") :=
  C1_merge_collision_overlay_wins [ZipEntry.mk ("p") [1]] [ZipEntry.mk ("p") [2]] ("p")
    (by decide) (by decide) (by decide)

/-- C6: for zip pairs (A, B) with disjoint entry-name sets, the merged
archive's name set is exactly the union of A's and B's, names of A read
back with A's original content, names of B with B's original content, and
names in neither archive are absent. -/
theorem C6_merge_disjoint_union (A B : ZipArchive)
    (hdisj : ∀ p ∈ zipNames A, p ∉ zipNames B) :
    (∀ p, p ∈ zipNames (merge_zip_files A B) ↔ p ∈ zipNames A ∨ p ∈ zipNames B) ∧
    (∀ p ∈ zipNames A, zipRead (merge_zip_files A B) p = zipRead A p) ∧
    (∀ p ∈ zipNames B, zipRead (merge_zip_files A B) p = zipRead B p) ∧
    (∀ p, p ∉ zipNames A → p ∉ zipNames B → zipRead (merge_zip_files A B) p = none) := by
  refine ⟨fun p => ?_, fun p hp => ?_, fun p hp => ?_, fun p hpA hpB => ?_⟩
  · rw [zipNames_merge, List.mem_append]
  · rw [zipRead_merge_of_not_mem_overlay (hdisj p hp)]
  · exact zipRead_merge_of_mem_overlay hp
  · rw [zipRead_merge_of_not_mem_overlay hpB]
    exact zipRead_eq_none_of_not_mem hpA

/-- C6 witness: the theorem instantiated at the disjoint pair
A = {a.txt ↦ [1]}, B = {b.txt ↦ [2]}, reading back both names. -/
theorem C6_merge_disjoint_union_witness :
    zipRead (merge_zip_files [ZipEntry.mk ("a.txt") [1]] [ZipEntry.mk ("b.txt") [2]]) ("a.txt") =
      zipRead [ZipEntry.mk ("a.txt") [1]] ("a.txt") :=
  (C6_merge_disjoint_union [ZipEntry.mk ("a.txt") [1]] [ZipEntry.mk ("b.txt") [2]]
    (by decide)).2.1 ("a.txt") (by decide)

/-- C7: merging an archive with itself as overlay yields an archive
content-equivalent to the original: the same entry-name set, and name-based
lookup returns byte-identical content for every name. -/
theorem C7_merge_self_content_equivalent (A : ZipArchive) :
    (∀ p, p ∈ zipNames (merge_zip_files A A) ↔ p ∈ zipNames A) ∧
    (∀ p, zipRead (merge_zip_files A A) p = zipRead A p) := by
  constructor
  · intro p
    rw [zipNames_merge, List.mem_append, or_self_iff]
  · intro p
    by_cases hp : p ∈ zipNames A
    · exact zipRead_merge_of_mem_overlay hp
    · exact zipRead_merge_of_not_mem_overlay hp

/-- C7 witness: the theorem instantiated at A = {a.txt ↦ [1]}, name a.txt. -/
theorem C7_merge_self_content_equivalent_witness :
    zipRead (merge_zip_files [ZipEntry.mk ("a.txt") [1]] [ZipEntry.mk ("a.txt") [1]]) ("a.txt") =
      zipRead [ZipEntry.mk ("a.txt") [1]] ("a.txt") :=
  (C7_merge_self_content_equivalent [ZipEntry.mk ("a.txt") [1]]).2 ("a.txt")

/-! ## Application state and the conflict-resolution handler

State threaded through the handlers: the local `temp_uploads` directory
(path ↦ zip bytes, written as a parsed archive since every stored payload
has passed zip validation) and the Drive backend's file store. Remote calls
that raise in Python (`files().delete` / download on a missing id, upload
into an unknown semester folder) are modelled as `Option`-returning
operations; `none` drives control into the corresponding `except` arm. -/

structure DriveFile where
  id : String
  name : String
  content : ZipArchive
deriving DecidableEq, Repr

structure AppState where
  tempFiles : List (String × ZipArchive)
  driveFiles : List DriveFile
deriving DecidableEq, Repr

/-- Reading a temp file (`open(temp_file, "rb")`): `none` when the path
does not exist, which raises `FileNotFoundError` in the source. -/
def tempLookup (st : AppState) (path : String) : Option ZipArchive :=
  (st.tempFiles.find? (fun t => t.1 == path)).map (fun t => t.2)

/-- `temp_file.unlink()`; also covers the guarded
`if temp_file.exists(): temp_file.unlink()` since removing an absent path
is a no-op on the state. -/
def tempUnlink (st : AppState) (path : String) : AppState :=
  { st with tempFiles := st.tempFiles.filter (fun t => t.1 != path) }

def driveLookup (st : AppState) (fid : String) : Option DriveFile :=
  st.driveFiles.find? (fun f => f.id == fid)

/-- `DRIVE_SERVICE.files().delete(fileId=...).execute()`: removes the file
when the id exists; raises (`none`) on an unknown id. -/
def driveDelete (st : AppState) (fid : String) : Option AppState :=
  match driveLookup st fid with
  | none => none
  | some _ => some { st with driveFiles := st.driveFiles.filter (fun f => f.id != fid) }

/-- `upload_file_to_drive` (main.py:254-326): validates the zip (already
guaranteed here, the stored payload is a parsed archive), resolves the
semester folder — raising `ValueError` (`none`) when the semester has no
provisioned folder — and creates a new Drive file with a backend-assigned
fresh id. -/
def upload_file_to_drive (validSemesters : List String) (freshId : String)
    (st : AppState) (fileBytes : ZipArchive) (filename semester : String) :
    Option AppState :=
  if validSemesters.contains semester then
    some { st with driveFiles := st.driveFiles ++ [DriveFile.mk freshId filename fileBytes] }
  else none

/-- `merge_zip_files_in_drive` (main.py:341-374): download the existing
file (raises on a missing id), merge via `merge_zip_files` with the new
bytes as overlay, and update the existing file's content in place. -/
def merge_zip_files_in_drive (st : AppState) (existingId : String)
    (newFileBytes : ZipArchive) : Option AppState :=
  match driveLookup st existingId with
  | none => none
  | some _ =>
      some { st with driveFiles := st.driveFiles.map (fun g =>
        if g.id == existingId then
          DriveFile.mk g.id g.name (merge_zip_files g.content newFileBytes)
        else g) }

inductive Resp where
  | redirect (location : String) (statusCode : Nat)
  | plainText (body : String) (statusCode : Nat)
deriving DecidableEq, Repr

/-- Python falsiness of `form.get(...)`: missing key or empty string. -/
def optFalsy : Option String → Bool
  | none => true
  | some s => s == ""

/-- The fields of the POST /admin/upload/resolve form. `temp`, `existing`,
`action` are accessed with `form[...]` (present in every form the conflict
page generates); `confirm1`/`confirm2` default to `""`; `semester` and
`batch_year` are accessed with `form.get`. -/
structure ResolveForm where
  temp : String
  existing : String
  action : String
  confirm1 : String
  confirm2 : String
  semester : Option String
  batch_year : Option String
deriving DecidableEq, Repr

structure ResolveOut where
  st : AppState
  toast : Option (String × String)
  response : Resp
deriving DecidableEq, Repr

/-- `admin_upload_resolve` (main.py:617-671). Control flow mirrors the
source: missing/empty semester or batch year → error redirect without
touching the temp file; action "remove" with both confirmations exactly
"REMOVE" → try: delete existing Drive file, read temp bytes, upload them
under the canonical name, unlink temp (any failing step jumps to the
`except` arm, which unlinks the temp if present); action "merge" → try:
read temp bytes, merge into the existing Drive file, unlink temp (same
`except` shape); anything else → unlink temp, rejection toast. Exception
toast texts abbreviate the `str(e)` interpolation of the source. -/
def admin_upload_resolve (validSemesters : List String) (freshId : String)
    (st : AppState) (form : ResolveForm) : ResolveOut :=
  if optFalsy form.semester || optFalsy form.batch_year then
    { st := st
      toast := some (("Missing semester or batch year"), ("error"))
      response := Resp.redirect ("/admin/upload") 303 }
  else
    if form.action = ("remove") ∧ form.confirm1 = ("REMOVE") ∧ form.confirm2 = ("REMOVE") then
      match driveDelete st form.existing with
      | none =>
          { st := tempUnlink st form.temp
            toast := some (("Error during replacement"), ("error"))
            response := Resp.redirect ("/admin/upload") 303 }
      | some st1 =>
          match tempLookup st1 form.temp with
          | none =>
              { st := tempUnlink st1 form.temp
                toast := some (("Error during replacement"), ("error"))
                response := Resp.redirect ("/admin/upload") 303 }
          | some fileBytes =>
              match upload_file_to_drive validSemesters freshId st1 fileBytes
                  (form.batch_year.getD ("") ++ (".zip")) (form.semester.getD ("")) with
              | none =>
                  { st := tempUnlink st1 form.temp
                    toast := some (("Error during replacement"), ("error"))
                    response := Resp.redirect ("/admin/upload") 303 }
              | some st2 =>
                  { st := tempUnlink st2 form.temp
                    toast := some (("Replaced " ++ form.batch_year.getD ("") ++ (".zip") ++ " in Drive"), ("success"))
                    response := Resp.redirect ("/admin") 307 }
    else if form.action = ("merge") then
      match tempLookup st form.temp with
      | none =>
          { st := tempUnlink st form.temp
            toast := some (("Merge failed"), ("error"))
            response := Resp.redirect ("/admin/upload") 303 }
      | some newFileBytes =>
          match merge_zip_files_in_drive st form.existing newFileBytes with
          | none =>
              { st := tempUnlink st form.temp
                toast := some (("Merge failed"), ("error"))
                response := Resp.redirect ("/admin/upload") 303 }
          | some st1 =>
              { st := tempUnlink st1 form.temp
                toast := some (("Merged new content into " ++ form.batch_year.getD ("") ++ (".zip")), ("success"))
                response := Resp.redirect ("/admin") 307 }
    else
      { st := tempUnlink st form.temp
        toast := some (("Resolution not confirmed or invalid action."), ("error"))
        response := Resp.redirect ("/admin/upload") 303 }

theorem tempLookup_tempUnlink (st : AppState) (p : String) :
    tempLookup (tempUnlink st p) p = none := by
  unfold tempLookup tempUnlink
  rw [Option.map_eq_none', List.find?_eq_none]
  intro t ht hbeq
  rw [List.mem_filter] at ht
  rw [beq_iff_eq] at hbeq
  have := ht.2
  rw [bne_iff_ne] at this
  exact this hbeq

theorem driveFiles_tempUnlink (st : AppState) (p : String) :
    (tempUnlink st p).driveFiles = st.driveFiles := rfl

/-! ## Claims C3, C4, C5: conflict-resolution workflow -/

/-- State before the C3 scenario: one pending upload (token
`temp_uploads/temp_t1.zip` holding {b.txt ↦ [2]}) awaiting resolution
against the existing Drive archive `fid1` = 2024.zip = {a.txt ↦ [1]}. -/
def c3State0 : AppState :=
  { tempFiles := [(("temp_uploads/temp_t1.zip"), [ZipEntry.mk ("b.txt") [2]])]
    driveFiles := [DriveFile.mk ("fid1") ("2024.zip") [ZipEntry.mk ("a.txt") [1]]] }

/-- First, terminal resolution of the C3 scenario: action merge. -/
def c3MergeForm : ResolveForm :=
  { temp := ("temp_uploads/temp_t1.zip"), existing := ("fid1")
    action := ("merge"), confirm1 := (""), confirm2 := ("")
    semester := some ("Semester_3"), batch_year := some ("2024") }

/-- Re-submission of the same resolve form (same pending token, same
existing id) with action remove and both confirmation phrases correct. -/
def c3ReplayForm : ResolveForm :=
  { c3MergeForm with action := ("remove"), confirm1 := ("REMOVE"), confirm2 := ("REMOVE") }

/-- C3: refuted on the code (code bug). After the merge resolution reaches
its terminal state (pending upload consumed, archive fid1 still present),
re-submitting the same token with action remove and both confirmations
correct DOES mutate storage: the handler issues the Drive delete of the
existing archive BEFORE attempting to read the (already deleted) temp
file, so the archive is destroyed and only then does the handler fail
into its except arm. The final Drive store is empty. -/
theorem C3_resubmission_mutates_storage :
    (admin_upload_resolve [("Semester_3")] ("fid2") c3State0 c3MergeForm).st.tempFiles = [] ∧
    (admin_upload_resolve [("Semester_3")] ("fid2") c3State0 c3MergeForm).st.driveFiles ≠ [] ∧
    (admin_upload_resolve [("Semester_3")] ("fid2")
        (admin_upload_resolve [("Semester_3")] ("fid2") c3State0 c3MergeForm).st
        c3ReplayForm).st.driveFiles = [] := by
  refine ⟨by decide, by decide, by decide⟩

/-- C4: every path of `admin_upload_resolve` past the initial validation
of the semester and batch-year fields — replace success, replace failure
at any step, merge success, merge failure at any step, and the rejection
path for bad confirmations or an invalid action — leaves the pending
upload's temp path deleted in the resulting state. -/
theorem C4_pending_upload_cleanup (validSemesters : List String)
    (freshId : String) (st : AppState) (form : ResolveForm)
    (hs : optFalsy form.semester = false) (hb : optFalsy form.batch_year = false) :
    tempLookup (admin_upload_resolve validSemesters freshId st form).st form.temp = none := by
  have hff : (optFalsy form.semester || optFalsy form.batch_year) = false := by
    rw [hs, hb]
    rfl
  unfold admin_upload_resolve
  rw [hff, if_neg Bool.false_ne_true]
  repeat' split
  all_goals exact tempLookup_tempUnlink _ _

/-- C4 witness: the cleanup theorem at a concrete rejected resolution
(action remove, wrong confirmation) starting from a state holding the
pending upload. -/
theorem C4_pending_upload_cleanup_witness :
    tempLookup (admin_upload_resolve [("Semester_3")] ("fid2")
      { tempFiles := [(("temp_uploads/temp_t9.zip"), [ZipEntry.mk ("b.txt") [2]])]
        driveFiles := [DriveFile.mk ("fid1") ("2024.zip") [ZipEntry.mk ("a.txt") [1]]] }
      { temp := ("temp_uploads/temp_t9.zip"), existing := ("fid1")
        action := ("remove"), confirm1 := ("REMOVE"), confirm2 := ("oops")
        semester := some ("Semester_3"), batch_year := some ("2024") }).st
      ("temp_uploads/temp_t9.zip") = none :=
  C4_pending_upload_cleanup _ _ _ _ (by decide) (by decide)

/-- C5: a resolve request that passes the field validation and carries the
replace action (form value "remove") with at least one of the two
confirmation phrases different from the keyword REMOVE is rejected: Drive
storage is untouched (in fact the whole state change is exactly the temp
unlink), the pending upload is deleted, and the handler answers with the
rejection toast and a redirect back to the upload form. -/
theorem C5_replace_bad_confirmation (validSemesters : List String)
    (freshId : String) (st : AppState) (form : ResolveForm)
    (hs : optFalsy form.semester = false) (hb : optFalsy form.batch_year = false)
    (ha : form.action = ("remove"))
    (hc : form.confirm1 ≠ ("REMOVE") ∨ form.confirm2 ≠ ("REMOVE")) :
    (admin_upload_resolve validSemesters freshId st form).st.driveFiles = st.driveFiles ∧
    (admin_upload_resolve validSemesters freshId st form).st = tempUnlink st form.temp ∧
    tempLookup (admin_upload_resolve validSemesters freshId st form).st form.temp = none ∧
    (admin_upload_resolve validSemesters freshId st form).toast =
      some (("Resolution not confirmed or invalid action."), ("error")) ∧
    (admin_upload_resolve validSemesters freshId st form).response =
      Resp.redirect ("/admin/upload") 303 := by
  have hff : (optFalsy form.semester || optFalsy form.batch_year) = false := by
    rw [hs, hb]
    rfl
  have hcond : ¬(form.action = ("remove") ∧ form.confirm1 = ("REMOVE") ∧
      form.confirm2 = ("REMOVE")) := by
    rintro ⟨-, h1, h2⟩
    cases hc with
    | inl h => exact h h1
    | inr h => exact h h2
  have hmerge : ¬(form.action = ("merge")) := by
    rw [ha]
    intro h
    exact absurd h (by decide)
  unfold admin_upload_resolve
  rw [hff, if_neg Bool.false_ne_true, if_neg hcond, if_neg hmerge]
  exact ⟨rfl, rfl, tempLookup_tempUnlink _ _, rfl, rfl⟩

/-- C5 witness: the theorem at a concrete bad-confirmation replace
request. -/
theorem C5_replace_bad_confirmation_witness :
    (admin_upload_resolve [("Semester_3")] ("fid2")
      { tempFiles := [(("temp_uploads/temp_t8.zip"), [ZipEntry.mk ("b.txt") [2]])]
        driveFiles := [DriveFile.mk ("fid1") ("2024.zip") [ZipEntry.mk ("a.txt") [1]]] }
      { temp := ("temp_uploads/temp_t8.zip"), existing := ("fid1")
        action := ("remove"), confirm1 := ("remove"), confirm2 := ("REMOVE")
        semester := some ("Semester_3"), batch_year := some ("2024") }).st.driveFiles =
      [DriveFile.mk ("fid1") ("2024.zip") [ZipEntry.mk ("a.txt") [1]]] :=
  (C5_replace_bad_confirmation _ _ _ _ (by decide) (by decide) rfl
    (Or.inl (by decide))).1

/-! ## Claim C8: admin auth gate -/

/-- Python's `str.startswith` on the prefix's characters. -/
def charsPrefixOf : List Char → List Char → Bool
  | [], _ => true
  | _ :: _, [] => false
  | a :: as, b :: bs => (a == b) && charsPrefixOf as bs

/-- `path.startswith(p)`. -/
def pyStartswith (s p : String) : Bool :=
  charsPrefixOf p.data s.data

/-- `admin_auth_before` (main.py:389-395): redirect to the login page when
the path is under /admin, not under /admin/login, and the session's admin
flag is not True; otherwise return nothing and let the handler run. The
session value is `sess.get("admin")`: absent, True, or False. -/
def admin_auth_before (path : String) (sessionAdmin : Option Bool) : Option Resp :=
  if pyStartswith path ("/admin") = true ∧ pyStartswith path ("/admin/login") = false ∧
      sessionAdmin ≠ some true then
    some (Resp.redirect ("/admin/login") 303)
  else none

/-- The Beforeware skip list (main.py:398): patterns `/admin/login` and
`/static/.*`, matched with `re.match`, i.e. anchored at the start of the
path only. -/
def skipMatches (path : String) : Bool :=
  pyStartswith path ("/admin/login") || pyStartswith path ("/static/")

inductive Dispatch where
  | redirected (location : String) (statusCode : Nat)
  | handled
deriving DecidableEq, Repr

/-- Request dispatch through the Beforeware: skipped paths go straight to
their route handler; otherwise `admin_auth_before` runs first and a
returned response short-circuits the handler. -/
def dispatchAdmin (path : String) (sessionAdmin : Option Bool) : Dispatch :=
  if skipMatches path then Dispatch.handled
  else
    match admin_auth_before path sessionAdmin with
    | some (Resp.redirect loc code) => Dispatch.redirected loc code
    | _ => Dispatch.handled

theorem charsPrefixOf_ne_second {a b c : Char} {t1 t2 l : List Char}
    (hbc : b ≠ c) (h : charsPrefixOf (a :: b :: t1) l = true) :
    charsPrefixOf (a :: c :: t2) l = false := by
  match l with
  | [] => simp [charsPrefixOf] at h
  | [x] => simp [charsPrefixOf] at h
  | x :: y :: rest =>
      simp only [charsPrefixOf, Bool.and_eq_true, beq_iff_eq] at h
      obtain ⟨hax, hby, -⟩ := h
      have hcy : (c == y) = false := by
        rw [beq_eq_false_iff_ne]
        rw [← hby]
        exact fun hcb => hbc hcb.symm
      simp [charsPrefixOf, hcy]

/-- A path under /admin is never under /static/: second characters differ. -/
theorem not_static_of_admin {path : String}
    (h : pyStartswith path ("/admin") = true) :
    pyStartswith path ("/static/") = false := by
  have h' : charsPrefixOf ('/' :: 'a' :: [ 'd', 'm', 'i', 'n']) path.data = true := h
  exact charsPrefixOf_ne_second (by decide) h'

/-- C8: a request whose path is under the /admin prefix and not under the
login path, carried by a session whose admin flag is not True, is answered
by a 303 redirect to the login page and its route handler is not executed
(the /static/ skip pattern cannot match such a path). -/
theorem C8_admin_requires_session (path : String) (sessionAdmin : Option Bool)
    (h1 : pyStartswith path ("/admin") = true)
    (h2 : pyStartswith path ("/admin/login") = false)
    (h3 : sessionAdmin ≠ some true) :
    dispatchAdmin path sessionAdmin = Dispatch.redirected ("/admin/login") 303 := by
  have hskip : skipMatches path = false := by
    unfold skipMatches
    rw [h2, not_static_of_admin h1]
    rfl
  unfold dispatchAdmin
  rw [hskip, if_neg Bool.false_ne_true]
  unfold admin_auth_before
  rw [if_pos ⟨h1, h2, h3⟩]

/-- C8 witness: an unauthenticated GET of the dashboard path /admin is
redirected to /admin/login. -/
theorem C8_admin_requires_session_witness :
    dispatchAdmin ("/admin") none = Dispatch.redirected ("/admin/login") 303 :=
  C8_admin_requires_session ("/admin") none (by decide) (by decide) (by decide)

/-! ## Claims C2, C10: deletion workflow -/

structure DeleteForm where
  confirmation : Option String
  password : Option String
deriving DecidableEq, Repr

structure DeleteOut where
  deleted : Bool
  response : Option Resp
  toast : Option (String × String)
deriving DecidableEq, Repr

/-- POST branch of `admin_delete` (main.py:706-785). `fileId` is the
`file` query parameter; a falsy value answers 400 immediately. With the
confirmation text exactly DELETE and the password equal to ADMIN_PASSWD,
the handler fetches the file's modifiedTime (an exception — e.g. unknown
id, modelled by `fileExists = false` — lands in the except arms: error
toast, redirect), computes `(utcnow - modifiedTime).total_seconds()`
(`ageSeconds`) and deletes only when that is ≤ 86400, otherwise toasts the
too-old error; both outcomes answer a 303 redirect to /admin. When the
credential condition fails the function body simply ends: no storage call
and no explicit response (Python returns None). -/
def admin_delete_post (adminPasswd : String) (fileId : Option String)
    (form : DeleteForm) (fileExists : Bool) (ageSeconds : Int) : DeleteOut :=
  if optFalsy fileId then
    { deleted := false
      response := some (Resp.plainText ("Invalid file parameter") 400)
      toast := none }
  else if form.confirmation = some ("DELETE") ∧ form.password = some adminPasswd then
    if fileExists then
      if ageSeconds ≤ 86400 then
        { deleted := true
          response := some (Resp.redirect ("/admin") 303)
          toast := some (("File deleted"), ("success")) }
      else
        { deleted := false
          response := some (Resp.redirect ("/admin") 303)
          toast := some (("Cannot delete file older than 24 hours"), ("error")) }
    else
      { deleted := false
        response := some (Resp.redirect ("/admin") 303)
        toast := some (("Deletion failed"), ("error")) }
  else
    { deleted := false, response := none, toast := none }

/-- C2 counterexample: with correct confirmation and password, at an age
of exactly 86400 seconds (24h00m00s) the code DELETES the file — the
check `total_seconds() <= 86400` is inclusive — whereas the claim states
the boundary is rejected at exactly 24h00m00s. -/
theorem C2_counterexample :
    (admin_delete_post ("pw") (some ("fid1"))
      (DeleteForm.mk (some ("DELETE")) (some ("pw"))) true 86400).deleted = true := by
  decide

/-- C2 (amended): with the correct confirmation keyword and admin
password, on an existing file, deletion executes exactly when
now − modifiedTime ≤ 86400 seconds and is rejected when it exceeds 86400
seconds; the boundary is inclusive: at exactly 24h00m00s deletion is
allowed, at 24h00m01s rejected, at 23h59m59s allowed. -/
theorem C2_retention_window (adminPasswd fid : String) (form : DeleteForm)
    (ageSeconds : Int)
    (hfid : (fid == ("")) = false)
    (hc : form.confirmation = some ("DELETE"))
    (hp : form.password = some adminPasswd) :
    ((admin_delete_post adminPasswd (some fid) form true ageSeconds).deleted = true
      ↔ ageSeconds ≤ 86400) ∧
    (86400 < ageSeconds →
      (admin_delete_post adminPasswd (some fid) form true ageSeconds).toast =
        some (("Cannot delete file older than 24 hours"), ("error"))) := by
  unfold admin_delete_post
  have hfalsy : optFalsy (some fid) = false := hfid
  rw [if_neg (by rw [hfalsy]; exact Bool.false_ne_true), if_pos ⟨hc, hp⟩,
    if_pos rfl]
  constructor
  · by_cases hage : ageSeconds ≤ 86400
    · rw [if_pos hage]
      simpa using hage
    · rw [if_neg hage]
      simpa using hage
  · intro hgt
    rw [if_neg (by omega)]

/-- C2 witness: the amended theorem at age 86399 seconds (23h59m59s):
deletion executes. -/
theorem C2_retention_window_witness :
    (admin_delete_post ("pw") (some ("fid1"))
      (DeleteForm.mk (some ("DELETE")) (some ("pw"))) true 86399).deleted = true :=
  (C2_retention_window ("pw") ("fid1")
    (DeleteForm.mk (some ("DELETE")) (some ("pw"))) 86399
    (by decide) rfl rfl).1.2 (by decide)

/-- C10: a POST to /admin/delete carrying a file id, in which the
confirmation text is not exactly DELETE or the password differs from the
admin password, performs no deletion and produces no explicit response at
all: the handler falls off the end of the function. -/
theorem C10_delete_bad_credentials (adminPasswd : String) (fileId : Option String)
    (form : DeleteForm) (fileExists : Bool) (ageSeconds : Int)
    (hfid : optFalsy fileId = false)
    (h : ¬(form.confirmation = some ("DELETE") ∧ form.password = some adminPasswd)) :
    admin_delete_post adminPasswd fileId form fileExists ageSeconds =
      DeleteOut.mk false none none := by
  unfold admin_delete_post
  rw [if_neg (by rw [hfid]; exact Bool.false_ne_true), if_neg h]

/-- C10 witness: wrong password with correct confirmation text: no
deletion, no response. -/
theorem C10_delete_bad_credentials_witness :
    admin_delete_post ("pw") (some ("fid1"))
      (DeleteForm.mk (some ("DELETE")) (some ("guess"))) true 10 =
      DeleteOut.mk false none none :=
  C10_delete_bad_credentials ("pw") (some ("fid1"))
    (DeleteForm.mk (some ("DELETE")) (some ("guess"))) true 10
    (by decide) (by intro hcp; exact absurd hcp.2 (by decide))

/-! ## Claim C9: startup provisioning -/

/-- The backend's behaviour during startup, as `initialize_drive` observes
it: whether the basic access test (`test_drive_access`) passes, the parent
folder's metadata fetch (name, mimeType; `none` when both fetch attempts
raise), and the outcome of `verify_or_create_folder` per folder name. -/
structure DriveBackend where
  accessOk : Bool
  parentMeta : Option (String × String)
  createFolder : String → Except String String

/-- `initialize_drive` (main.py:120-182): abort (raise) when the basic
access test fails, when the parent folder cannot be fetched, or when its
mimeType is not a folder; then provision Semester_1 .. Semester_8, where a
failure for an individual semester folder is caught, printed as a warning,
and SKIPPED (`continue`) — it does not abort. Returns the mapping of the
successfully provisioned folders. -/
def initialize_drive (b : DriveBackend) : Except String (List (String × String)) :=
  if b.accessOk = false then Except.error ("Basic Drive access test failed")
  else
    match b.parentMeta with
    | none => Except.error ("Could not access folder with either method")
    | some (_, mimeType) =>
      if mimeType ≠ ("application/vnd.google-apps.folder") then
        Except.error ("is not a folder")
      else
        Except.ok ((List.range' 1 8).foldl (fun acc n =>
          match b.createFolder (("Semester_") ++ toString n) with
          | Except.ok fid => acc ++ [((("Semester_") ++ toString n), fid)]
          | Except.error _ => acc) [])

structure Config where
  adminPasswd : Option String
  driveParentFolderId : Option String

inductive StartupResult where
  | exited (code : Nat)
  | running (semesterFolderIds : List (String × String))
deriving DecidableEq, Repr

/-- Process startup (main.py:40-46 and 956-964): a missing or empty
ADMIN_PASSWD or DRIVE_PARENT_FOLDER_ID raises an uncaught Exception while
the module loads (the process dies with a non-zero code); then
`initialize_drive` runs under try/except with `exit(1)` on any error;
otherwise the server starts with the returned folder mapping. -/
def startup (cfg : Config) (b : DriveBackend) : StartupResult :=
  if optFalsy cfg.adminPasswd then StartupResult.exited 1
  else if optFalsy cfg.driveParentFolderId then StartupResult.exited 1
  else
    match initialize_drive b with
    | Except.error _ => StartupResult.exited 1
    | Except.ok folders => StartupResult.running folders

/-- C9 counterexample: with valid configuration and a reachable backend
whose folder creation fails for Semester_3 only, the process does NOT
terminate: `initialize_drive` logs a warning, skips that semester and the
server starts with a seven-entry folder mapping. This refutes the claim
that failure to provision any of the eight semester sub-folders causes
immediate non-zero termination. -/
theorem C9_counterexample :
    startup (Config.mk (some ("pw")) (some ("root")))
      (DriveBackend.mk true (some (("Root"), ("application/vnd.google-apps.folder")))
        (fun nm => if nm = ("Semester_3") then Except.error ("rate limited")
          else Except.ok (("id_") ++ nm))) =
      StartupResult.running
        [(("Semester_1"), ("id_Semester_1")), (("Semester_2"), ("id_Semester_2")),
         (("Semester_4"), ("id_Semester_4")), (("Semester_5"), ("id_Semester_5")),
         (("Semester_6"), ("id_Semester_6")), (("Semester_7"), ("id_Semester_7")),
         (("Semester_8"), ("id_Semester_8"))] := by
  decide

/-- C9 (amended): startup terminates with a non-zero exit code when
mandatory configuration (admin password, parent folder id) is missing or
when the backend is unreachable (access test fails, parent folder
unfetchable, or parent not a folder); but a failure to provision an
individual semester sub-folder does NOT terminate the process — the
semester is skipped and the server starts with a partial folder mapping. -/
theorem initialize_drive_error_of_no_access (b : DriveBackend)
    (h : b.accessOk = false) :
    initialize_drive b = Except.error ("Basic Drive access test failed") := by
  unfold initialize_drive
  rw [if_pos h]

theorem initialize_drive_error_of_no_parent (b : DriveBackend)
    (hacc : b.accessOk = true) (h : b.parentMeta = none) :
    initialize_drive b = Except.error ("Could not access folder with either method") := by
  unfold initialize_drive
  rw [if_neg (by simp [hacc]), h]

theorem initialize_drive_ok_of_folder_parent (b : DriveBackend) (pname : String)
    (hacc : b.accessOk = true)
    (hp : b.parentMeta = some (pname, ("application/vnd.google-apps.folder"))) :
    ∃ folders, initialize_drive b = Except.ok folders := by
  refine ⟨(List.range' 1 8).foldl (fun acc n =>
    match b.createFolder (("Semester_") ++ toString n) with
    | Except.ok fid => acc ++ [((("Semester_") ++ toString n), fid)]
    | Except.error _ => acc) [], ?_⟩
  unfold initialize_drive
  rw [if_neg (by simp [hacc])]
  simp only [hp]
  rw [if_neg (fun h => h rfl)]

theorem startup_exited_of_init_error (cfg : Config) (b : DriveBackend) (msg : String)
    (h : initialize_drive b = Except.error msg) :
    startup cfg b = StartupResult.exited 1 := by
  unfold startup
  cases hA : optFalsy cfg.adminPasswd with
  | true => rw [if_pos rfl]
  | false =>
      rw [if_neg Bool.false_ne_true]
      cases hP : optFalsy cfg.driveParentFolderId with
      | true => rw [if_pos rfl]
      | false =>
          rw [if_neg Bool.false_ne_true, h]

/-- C9 (amended): startup terminates with a non-zero exit code when
mandatory configuration (admin password, parent folder id) is missing or
when the backend is unreachable (access test fails or the parent folder
cannot be fetched); but a failure to provision an individual semester
sub-folder does NOT terminate the process — that semester is skipped and
the server starts with a partial folder mapping, whatever the per-folder
creation outcomes are. -/
theorem C9_startup_abort (cfg : Config) (b : DriveBackend) :
    (optFalsy cfg.adminPasswd = true ∨ optFalsy cfg.driveParentFolderId = true →
      startup cfg b = StartupResult.exited 1) ∧
    (b.accessOk = false → startup cfg b = StartupResult.exited 1) ∧
    (b.parentMeta = none → startup cfg b = StartupResult.exited 1) ∧
    (∀ pname, b.parentMeta = some (pname, ("application/vnd.google-apps.folder")) →
      b.accessOk = true → optFalsy cfg.adminPasswd = false →
      optFalsy cfg.driveParentFolderId = false →
      ∀ code, startup cfg b ≠ StartupResult.exited code) := by
  refine ⟨?_, ?_, ?_, ?_⟩
  · intro h
    unfold startup
    cases h with
    | inl h => rw [h, if_pos rfl]
    | inr h =>
        cases hA : optFalsy cfg.adminPasswd with
        | true => rw [if_pos rfl]
        | false => rw [if_neg Bool.false_ne_true, h, if_pos rfl]
  · intro h
    exact startup_exited_of_init_error cfg b _ (initialize_drive_error_of_no_access b h)
  · intro h
    cases hacc : b.accessOk with
    | false =>
        exact startup_exited_of_init_error cfg b _ (initialize_drive_error_of_no_access b hacc)
    | true =>
        exact startup_exited_of_init_error cfg b _
          (initialize_drive_error_of_no_parent b hacc h)
  · intro pname hp hacc hA hP code
    obtain ⟨folders, hok⟩ := initialize_drive_ok_of_folder_parent b pname hacc hp
    unfold startup
    rw [hA, hP]
    rw [if_neg Bool.false_ne_true, if_neg Bool.false_ne_true, hok]
    intro h
    exact StartupResult.noConfusion h

/-- C9 witness: missing admin password with an otherwise healthy backend:
the process exits non-zero. -/
theorem C9_startup_abort_witness :
    startup (Config.mk none (some ("root")))
      (DriveBackend.mk true (some (("Root"), ("application/vnd.google-apps.folder")))
        (fun nm => Except.ok nm)) = StartupResult.exited 1 :=
  (C9_startup_abort (Config.mk none (some ("root")))
    (DriveBackend.mk true (some (("Root"), ("application/vnd.google-apps.folder")))
      (fun nm => Except.ok nm))).1 (Or.inl (by decide))

end DataScienceKu
